import Mathlib

/- Verification of the traceability-psg-offal label printer.

   Shallow embedding of src/printer.py (command-stream builder and socket
   transport with its exception handlers) and of the input validation in
   src/main.py (Application.start_printing). Network effects are modelled by
   passing in the outcome of each socket operation: `none` means the
   operation succeeded, `some e` means it raised the exception `e`. -/

/-- Printer host constant PRINTER_IP from printer.py line 20. -/
def PRINTER_IP : String := "192.168.1.193"

/-- Printer port constant PRINTER_PORT from printer.py line 21. -/
def PRINTER_PORT : Int := 9100

/-- Socket timeout in seconds, set once by s.settimeout(5) in printer.py
line 84; it bounds every subsequent blocking socket operation. -/
def socket_timeout_seconds : Nat := 5

/-- Fixed setup command lines of print_labels (printer.py lines 45-50). -/
def setup_commands : List String :=
  ["SET \"PRINT METHOD\" \"DIRECT THERMAL\"",
   "SET \"MEDIA TYPE\" \"GAP\"",
   "SET \"MEDIA WIDTH\" 840",
   "SET \"MEDIA LENGTH\" 251"]

/-- Per-label command group (printer.py lines 63-70); the TEXT line embeds
the decimal rendering of the loop index i, as the Python f-string does. -/
def label_commands (i : Int) : List String :=
  ["FONT \"Swiss 721\"",
   "MAGNIFY 10, 10",
   "JUSTIFY CENTER",
   "TEXT \"" ++ toString i ++ "\"",
   "PRINT",
   "FORMFEED"]

/-- Python range(1, n + 1) as a list of integers; empty when n is not
positive, exactly as in Python. -/
def pyRange1 (n : Int) : List Int :=
  (List.range n.toNat).map (fun k => Int.ofNat k + 1)

/-- Loop of printer.py lines 57-71: start from the empty list and extend by
one label_commands group per index of range(1, n + 1). -/
def print_commands (n : Int) : List String :=
  (pyRange1 n).foldl (fun acc i => acc ++ label_commands i) []

/-- Full payload of printer.py line 76: all lines joined by a newline, plus
one trailing newline. -/
def full_command_string (n : Int) : String :=
  String.intercalate ("\n") (setup_commands ++ print_commands n) ++ "\n"

/-- Exception raised by a socket operation. The three constructors mirror
the three handlers of printer.py lines 94-102: socket.timeout,
socket.error carrying its message, and any other Exception carrying its
message. The constructors are disjoint, which encodes the effect of the
source ordering of the handlers (timeout is matched before the general
socket.error handler). -/
inductive SockExc where
  | timeout : SockExc
  | sockErr : String → SockExc
  | otherErr : String → SockExc
deriving DecidableEq

/-- Try-block of print_labels (printer.py lines 39-92): the stream is built
first (a total computation), then connect runs and may raise, then sendall
runs and may raise; if both succeed the success tuple is returned. -/
def print_labels_try (n : Int) (connectRes sendRes : Option SockExc) :
    Except SockExc (Bool × String) :=
  let _stream := full_command_string n
  match connectRes with
  | some e => Except.error e
  | none =>
    match sendRes with
    | some e => Except.error e
    | none =>
      Except.ok (true, "Successfully sent print job for " ++ toString n ++ " labels.")

/-- print_labels (printer.py lines 23-102): the try-block result, passed
through the handler chain except socket.timeout / except socket.error /
except Exception in source order. -/
def print_labels (n : Int) (connectRes sendRes : Option SockExc) : Bool × String :=
  match print_labels_try n connectRes sendRes with
  | Except.ok r => r
  | Except.error SockExc.timeout =>
      (false, "Connection timed out. Check printer IP (" ++ PRINTER_IP ++ ") and network.")
  | Except.error (SockExc.sockErr m) => (false, "Socket error: " ++ m)
  | Except.error (SockExc.otherErr m) =>
      (false, "An unexpected error occurred: " ++ m)

/-- Substring test: pat occurs contiguously somewhere in s. Models the
Python `pat in s` operator on strings. -/
def strContains (pat s : String) : Bool :=
  (List.range (s.data.length + 1)).any fun k =>
    List.take pat.data.length (List.drop k s.data) == pat.data

/-- Decimal value of a character under Python semantics (Unicode category
Nd): int() accepts exactly these. The model covers the ASCII decimal
digits and, as the representative of the non-ASCII decimal scripts, the
Arabic-Indic decimal digits U+0660 to U+0669; the other Nd scripts behave
the same way and are not exercised by the claims. -/
def pyCharDecimalVal (c : Char) : Option Nat :=
  if 48 ≤ c.toNat ∧ c.toNat ≤ 57 then some (c.toNat - 48)
  else if 1632 ≤ c.toNat ∧ c.toNat ≤ 1641 then some (c.toNat - 1632)
  else none

/-- Characters with the Unicode digit property that are not decimal (so
str.isdigit accepts them but int() rejects them): the superscript digits
U+00B9, U+00B2, U+00B3 and U+2070, U+2074 to U+2079 stand in for this
class. -/
def isSuperscriptDigit (c : Char) : Bool :=
  c.toNat == 178 || c.toNat == 179 || c.toNat == 185 || c.toNat == 8304 ||
  (decide (8308 ≤ c.toNat) && decide (c.toNat ≤ 8313))

/-- Python str.isdigit (main.py line 149): nonempty and every character has
the Unicode digit property, which is wider than the decimal property —
superscript two passes isdigit although int() cannot parse it. -/
def pyIsDigit (s : String) : Bool :=
  !s.data.isEmpty && s.data.all (fun c => (pyCharDecimalVal c).isSome || isSuperscriptDigit c)

/-- Python int() on a string: succeeds exactly when the string is a
nonempty run of Unicode-decimal characters, with their decimal values read
in base ten; otherwise it raises ValueError. Signs, whitespace and
underscores are omitted from the model because start_printing only reaches
int() behind an isdigit test, which none of those characters pass. -/
def pyIntValue (s : String) : Except String Int :=
  if !s.data.isEmpty && s.data.all (fun c => (pyCharDecimalVal c).isSome) then
    Except.ok ((s.data.foldl (fun a c => 10 * a + (pyCharDecimalVal c).getD 0) 0 : Nat) : Int)
  else
    Except.error ("ValueError: invalid literal for int() with base 10: " ++ s)

/-- Status text chosen by start_printing (main.py lines 169-180) from the
print_labels result, with gettext modelled as the identity fallback. -/
def display_status (n : Int) (r : Bool × String) : String :=
  if r.1 then ("Successfully sent print job for " ++ toString n ++ " labels.")
  else if strContains ("Connection timed out") r.2 then
    "Error: Connection timed out. Check printer IP and network."
  else if strContains ("Socket error") r.2 then
    "Error: A network error occurred."
  else ("Error: An unexpected error occurred.")

/-- Outcome of one call of Application.start_printing: either the method
returned, recording the argument print_labels was invoked with (`none`
when it was never invoked) and the status-label text, or an exception
escaped the method uncaught. -/
inductive UIOutcome where
  | returned : Option Int → String → UIOutcome
  | raised : String → UIOutcome
deriving DecidableEq

/-- Application.start_printing (main.py lines 140-180): the condition
`not input_value.isdigit() or int(input_value) <= 0` with Python
short-circuiting — int() only runs once isdigit has passed, and a
ValueError raised by int() propagates uncaught out of the handler. On a
validation failure the error status is set and print_labels is never
invoked; otherwise print_labels runs and its result is mapped to a status
text. -/
def start_printing (input : String) (connectRes sendRes : Option SockExc) : UIOutcome :=
  match pyIsDigit input with
  | false => UIOutcome.returned none ("Error: Please enter a positive whole number.")
  | true =>
    match pyIntValue input with
    | Except.error e => UIOutcome.raised e
    | Except.ok n =>
      if n ≤ 0 then
        UIOutcome.returned none ("Error: Please enter a positive whole number.")
      else
        UIOutcome.returned (some n) (display_status n (print_labels n connectRes sendRes))

/-! ### Helper lemmas about strContains -/

/-- Occurrence of m in the middle of p ++ (m ++ q). -/
theorem strContains_mid (p m q : String) : strContains m (p ++ (m ++ q)) = true := by
  unfold strContains
  rw [List.any_eq_true]
  have hdata : (p ++ (m ++ q)).data = p.data ++ (m.data ++ q.data) := by
    simp
  refine ⟨p.data.length, List.mem_range.2 ?_, ?_⟩
  · rw [hdata]
    simp only [List.length_append]
    omega
  · rw [hdata, List.drop_left, List.take_left]
    exact beq_self_eq_true _

/-- Occurrence of m at the end of p ++ m. -/
theorem strContains_append_self (p m : String) : strContains m (p ++ m) = true := by
  have h := strContains_mid p m ("")
  rwa [String.append_empty] at h

/-! ### Transport-layer theorems -/

/-- C3: print_labels is total and converts every raised failure into a
success=false result. Each run either is the clean success tuple (both
socket operations succeeded; building the stream is a total computation and
cannot fail) or ends in one of the three handlers with success=false; no
exception escapes. -/
theorem print_labels_never_raises (n : Int) (c s : Option SockExc) :
    (c = none ∧ s = none ∧
      print_labels n c s =
        (true, "Successfully sent print job for " ++ toString n ++ " labels."))
    ∨ ((print_labels n c s).1 = false ∧ (c ≠ none ∨ s ≠ none)) := by
  cases c with
  | none =>
    cases s with
    | none => exact Or.inl ⟨rfl, rfl, rfl⟩
    | some e =>
      refine Or.inr ⟨?_, Or.inr (by simp)⟩
      cases e <;> rfl
  | some e =>
    refine Or.inr ⟨?_, Or.inl (by simp)⟩
    cases e <;> rfl

/-- C4: on a clean transmission print_labels returns success=true and the
message reports exactly the requested count n. -/
theorem print_labels_success_message (n : Int) (_hn : 1 ≤ n) :
    print_labels n none none =
      (true, "Successfully sent print job for " ++ toString n ++ " labels.") ∧
    strContains (toString n) (print_labels n none none).2 = true := by
  refine ⟨rfl, ?_⟩
  show strContains (toString n)
      ("Successfully sent print job for " ++ toString n ++ " labels.") = true
  rw [String.append_assoc]
  exact strContains_mid _ _ _

/-- Witness for print_labels_success_message at n = 3. -/
theorem print_labels_success_message_witness :
    (1 : Int) ≤ 3 ∧
    print_labels 3 none none =
      (true, "Successfully sent print job for " ++ toString (3 : Int) ++ " labels.") :=
  ⟨by decide, (print_labels_success_message 3 (by decide)).1⟩

/-- C5: a non-timeout socket failure, whether raised at connect or during
sendall, lands in the socket.error handler: success=false with the message
carrying the underlying error description. -/
theorem socket_error_branch_message (n : Int) (m : String) (sendRes : Option SockExc) :
    print_labels n (some (SockExc.sockErr m)) sendRes = (false, "Socket error: " ++ m) ∧
    print_labels n none (some (SockExc.sockErr m)) = (false, "Socket error: " ++ m) ∧
    strContains m (print_labels n none (some (SockExc.sockErr m))).2 = true := by
  refine ⟨rfl, rfl, ?_⟩
  show strContains m ("Socket error: " ++ m) = true
  exact strContains_append_self _ _

/-- C2 counterexample: on a connect timeout the result is success=false,
but the message does not contain the configured port (9100). -/
theorem connect_timeout_message_omits_port :
    (print_labels 3 (some SockExc.timeout) none).1 = false ∧
    strContains (toString PRINTER_PORT) (print_labels 3 (some SockExc.timeout) none).2
      = false := by
  decide

/-- C2 amended: on a connect timeout, print_labels returns success=false
from the socket.timeout handler and the message includes the configured
host, but not the configured port. -/
theorem connect_timeout_branch (n : Int) (sendRes : Option SockExc) :
    print_labels n (some SockExc.timeout) sendRes =
      (false, "Connection timed out. Check printer IP (192.168.1.193) and network.") ∧
    strContains PRINTER_IP (print_labels n (some SockExc.timeout) sendRes).2 = true ∧
    strContains (toString PRINTER_PORT) (print_labels n (some SockExc.timeout) sendRes).2
      = false := by
  refine ⟨rfl, ?_, ?_⟩
  · show strContains PRINTER_IP
        ("Connection timed out. Check printer IP (" ++ PRINTER_IP ++ ") and network.") = true
    decide
  · show strContains (toString PRINTER_PORT)
        ("Connection timed out. Check printer IP (" ++ PRINTER_IP ++ ") and network.") = false
    decide

/-- C10: the socket timeout is the single constant 5 set once on the
socket, and a timeout raised during sendall is handled by the same
socket.timeout branch as a connect timeout, producing the connection
timed-out message rather than the socket-error one. -/
theorem send_timeout_uses_timeout_branch (n : Int) :
    socket_timeout_seconds = 5 ∧
    print_labels n none (some SockExc.timeout) =
      (false, "Connection timed out. Check printer IP (192.168.1.193) and network.") ∧
    print_labels n none (some SockExc.timeout) =
      print_labels n (some SockExc.timeout) none :=
  ⟨rfl, rfl, rfl⟩

/-- C9: for a non-positive count the loop body is empty, the stream is the
four setup lines only, and a clean transmission still reports success with
the non-positive count in the message. -/
theorem nonpositive_count_setup_only (n : Int) (hn : n ≤ 0) :
    print_commands n = [] ∧
    full_command_string n =
      "SET \"PRINT METHOD\" \"DIRECT THERMAL\"\nSET \"MEDIA TYPE\" \"GAP\"\nSET \"MEDIA WIDTH\" 840\nSET \"MEDIA LENGTH\" 251\n" ∧
    print_labels n none none =
      (true, "Successfully sent print job for " ++ toString n ++ " labels.") := by
  have h0 : n.toNat = 0 := Int.toNat_of_nonpos hn
  have hpc : print_commands n = [] := by
    unfold print_commands pyRange1
    rw [h0]
    rfl
  refine ⟨hpc, ?_, rfl⟩
  unfold full_command_string
  rw [hpc, List.append_nil]
  rfl

/-- Witness for nonpositive_count_setup_only at n = 0. -/
theorem nonpositive_count_setup_only_witness :
    (0 : Int) ≤ 0 ∧ print_commands 0 = [] ∧
    print_labels 0 none none =
      (true, "Successfully sent print job for " ++ toString (0 : Int) ++ " labels.") := by
  have h := nonpositive_count_setup_only 0 (by decide)
  exact ⟨by decide, h.1, h.2.2⟩

/-- Equation of start_printing when isdigit fails. -/
theorem start_printing_isdigit_false (input : String) (c s : Option SockExc)
    (h : pyIsDigit input = false) :
    start_printing input c s =
      UIOutcome.returned none ("Error: Please enter a positive whole number.") := by
  unfold start_printing
  rw [h]

/-- Equation of start_printing when isdigit passes but int() raises. -/
theorem start_printing_int_raises (input : String) (c s : Option SockExc) (e : String)
    (h1 : pyIsDigit input = true) (h2 : pyIntValue input = Except.error e) :
    start_printing input c s = UIOutcome.raised e := by
  unfold start_printing
  rw [h1, h2]

/-- Equation of start_printing when the parsed value is not positive. -/
theorem start_printing_nonpos (input : String) (c s : Option SockExc) (v : Int)
    (h1 : pyIsDigit input = true) (h2 : pyIntValue input = Except.ok v) (h3 : v ≤ 0) :
    start_printing input c s =
      UIOutcome.returned none ("Error: Please enter a positive whole number.") := by
  unfold start_printing
  rw [h1, h2]
  show (if v ≤ 0 then
      UIOutcome.returned none ("Error: Please enter a positive whole number.")
    else
      UIOutcome.returned (some v) (display_status v (print_labels v c s))) =
    UIOutcome.returned none ("Error: Please enter a positive whole number.")
  rw [if_pos h3]

/-- Equation of start_printing when the parsed value is positive. -/
theorem start_printing_pos (input : String) (c s : Option SockExc) (v : Int)
    (h1 : pyIsDigit input = true) (h2 : pyIntValue input = Except.ok v) (h3 : ¬ v ≤ 0) :
    start_printing input c s =
      UIOutcome.returned (some v) (display_status v (print_labels v c s)) := by
  unfold start_printing
  rw [h1, h2]
  show (if v ≤ 0 then
      UIOutcome.returned none ("Error: Please enter a positive whole number.")
    else
      UIOutcome.returned (some v) (display_status v (print_labels v c s))) =
    UIOutcome.returned (some v) (display_status v (print_labels v c s))
  rw [if_neg h3]

/-- C8 counterexample: the superscript-two entry is not a string of decimal
digits, yet it passes str.isdigit, so start_printing evaluates int() inside
the condition and the ValueError escapes uncaught: no error status is set
and the method does not return, contradicting the claimed rejection
behavior at this concrete input (print_labels is still never invoked). -/
theorem superscript_input_not_rejected :
    ("²").data.all Char.isDigit = false ∧
    pyIsDigit ("²") = true ∧
    start_printing ("²") none none =
      UIOutcome.raised
        ("ValueError: invalid literal for int() with base 10: " ++ "²") ∧
    start_printing ("²") none none ≠
      UIOutcome.returned none ("Error: Please enter a positive whole number.") := by
  decide

/-- C8 amended: start_printing rejects with the error status, never
invoking print_labels, exactly when str.isdigit fails or the parsed value
is not positive; when isdigit passes but the string contains a non-decimal
digit character, int() raises an uncaught ValueError — print_labels is
still never invoked but no error status is set; and in every case a count
reaching print_labels from the UI path is positive. -/
theorem start_printing_validation (input : String) (c s : Option SockExc) :
    (pyIsDigit input = false →
      start_printing input c s =
        UIOutcome.returned none ("Error: Please enter a positive whole number.")) ∧
    (∀ v : Int, pyIntValue input = Except.ok v → v ≤ 0 →
      start_printing input c s =
        UIOutcome.returned none ("Error: Please enter a positive whole number.")) ∧
    (∀ e, pyIsDigit input = true → pyIntValue input = Except.error e →
      start_printing input c s = UIOutcome.raised e) ∧
    (∀ n status, start_printing input c s = UIOutcome.returned (some n) status →
      1 ≤ n) := by
  refine ⟨start_printing_isdigit_false input c s, ?_, ?_, ?_⟩
  · intro v hok hv
    cases hB : pyIsDigit input with
    | false => exact start_printing_isdigit_false input c s hB
    | true => exact start_printing_nonpos input c s v hB hok hv
  · intro e hB herr
    exact start_printing_int_raises input c s e hB herr
  · intro n status heq
    cases hB : pyIsDigit input with
    | false =>
      rw [start_printing_isdigit_false input c s hB] at heq
      simp at heq
    | true =>
      cases hI : pyIntValue input with
      | error e =>
        rw [start_printing_int_raises input c s e hB hI] at heq
        exact absurd heq (by simp)
      | ok v =>
        by_cases hv : v ≤ 0
        · rw [start_printing_nonpos input c s v hB hI hv] at heq
          simp at heq
        · rw [start_printing_pos input c s v hB hI hv] at heq
          have hsome : some v = some n := by
            injection heq
          injection hsome with hvn
          omega

/-- Witness for start_printing_validation: the non-digit entry abc is
rejected with the error status and print_labels is never invoked. -/
theorem start_printing_validation_witness :
    pyIsDigit ("abc") = false ∧
    start_printing ("abc") none none =
      UIOutcome.returned none ("Error: Please enter a positive whole number.") :=
  ⟨by decide, (start_printing_validation ("abc") none none).1 (by decide)⟩

/-! ### Structure of the command-stream body -/

/-- Folding list-append over an accumulator is flattening the mapped list. -/
theorem foldl_append_eq_flatten (f : Int → List String) (l : List Int) (acc : List String) :
    l.foldl (fun a i => a ++ f i) acc = acc ++ (l.map f).flatten := by
  induction l generalizing acc with
  | nil => simp
  | cons x xs ih => simp [ih, List.append_assoc]

/-- Closed form of the print_commands accumulation loop. -/
theorem print_commands_eq (n : Int) :
    print_commands n = ((pyRange1 n).map label_commands).flatten := by
  unfold print_commands
  rw [foldl_append_eq_flatten, List.nil_append]

/-- Length of a flattened list of blocks of uniform length six. -/
theorem flatten_uniform_length (L : List (List String)) (h : ∀ l ∈ L, l.length = 6) :
    L.flatten.length = 6 * L.length := by
  induction L with
  | nil => simp
  | cons a tl ih =>
    have ha : a.length = 6 := h a (List.mem_cons_self a tl)
    have htl := ih (fun l hl => h l (List.mem_cons_of_mem a hl))
    simp only [List.flatten_cons, List.length_append, List.length_cons, ha, htl]
    omega

/-- Indexing inside a flattened list of blocks of uniform length six. -/
theorem flatten_uniform_getElem (L : List (List String)) (h : ∀ l ∈ L, l.length = 6)
    (i j : Nat) (hi : i < L.length) (hj : j < 6) :
    L.flatten[6 * i + j]? = (L.get ⟨i, hi⟩)[j]? := by
  induction L generalizing i with
  | nil => exact absurd hi (Nat.not_lt_zero i)
  | cons a tl ih =>
    have ha : a.length = 6 := h a (List.mem_cons_self a tl)
    cases i with
    | zero =>
      have hj' : 6 * 0 + j < a.length := by omega
      rw [List.flatten_cons, List.getElem?_append_left hj']
      simp
    | succ k =>
      have hlen : a.length ≤ 6 * (k + 1) + j := by omega
      rw [List.flatten_cons, List.getElem?_append_right hlen]
      have harith : 6 * (k + 1) + j - a.length = 6 * k + j := by omega
      rw [harith]
      have hk : k < tl.length := by
        have := hi
        simp only [List.length_cons] at this
        omega
      rw [ih (fun l hl => h l (List.mem_cons_of_mem a hl)) k hk]
      rfl

/-- C1: for n at least one, the stream list has the four setup lines
followed by exactly n six-line label groups, and the group at 0-based
position i carries the TEXT payload rendering the decimal string of i+1,
so the indices appear in strictly ascending order 1..n. -/
theorem stream_contains_n_groups (n : Int) (_hn : 1 ≤ n) :
    (setup_commands ++ print_commands n).length = 4 + 6 * n.toNat ∧
    ∀ i : Nat, i < n.toNat →
      (setup_commands ++ print_commands n)[4 + (6 * i + 3)]? =
        some ("TEXT \"" ++ Nat.repr (i + 1) ++ "\"") := by
  have hmap : ∀ l ∈ (pyRange1 n).map label_commands, l.length = 6 := by
    intro l hl
    obtain ⟨i, _, rfl⟩ := List.mem_map.1 hl
    rfl
  have hL : ((pyRange1 n).map label_commands).length = n.toNat := by
    simp only [List.length_map, pyRange1, List.length_range]
  constructor
  · rw [List.length_append, print_commands_eq, flatten_uniform_length _ hmap, hL]
    rfl
  · intro i hi
    rw [List.getElem?_append_right (by show 4 ≤ 4 + (6 * i + 3); omega)]
    have hidx : 4 + (6 * i + 3) - setup_commands.length = 6 * i + 3 := by
      show 4 + (6 * i + 3) - 4 = 6 * i + 3
      omega
    rw [hidx, print_commands_eq]
    have hi' : i < ((pyRange1 n).map label_commands).length := by
      rw [hL]
      exact hi
    rw [flatten_uniform_getElem _ hmap i 3 hi' (by omega)]
    have hget : ((pyRange1 n).map label_commands).get ⟨i, hi'⟩ =
        label_commands ((i : Int) + 1) := by
      simp only [List.get_eq_getElem, List.getElem_map, pyRange1, List.getElem_range]
      rw [Int.ofNat_eq_coe]
    rw [hget]
    show some ("TEXT \"" ++ toString ((i : Int) + 1) ++ "\"") =
      some ("TEXT \"" ++ Nat.repr (i + 1) ++ "\"")
    have hcast : ((i : Int) + 1) = Int.ofNat (i + 1) := by
      rw [Int.ofNat_eq_coe, Nat.cast_succ]
    rw [hcast]
    rfl

/-- Witness for stream_contains_n_groups at n = 2, group position 1. -/
theorem stream_contains_n_groups_witness :
    (1 : Int) ≤ 2 ∧
    (setup_commands ++ print_commands 2)[4 + (6 * 1 + 3)]? =
      some ("TEXT \"" ++ Nat.repr (1 + 1) ++ "\"") := by
  have h := stream_contains_n_groups 2 (by decide)
  exact ⟨by decide, h.2 1 (by decide)⟩

/-! ### Joining lines with terminators -/

/-- Folding string-append over an accumulator splits off the accumulator. -/
theorem string_foldl_append (l : List String) (acc : String) :
    l.foldl (fun r s => r ++ s) acc = acc ++ l.foldl (fun r s => r ++ s) "" := by
  induction l generalizing acc with
  | nil =>
    show acc = acc ++ ""
    rw [String.append_empty]
  | cons a as ih =>
    simp only [List.foldl_cons]
    rw [ih (acc ++ a), ih ("" ++ a), String.empty_append, String.append_assoc]

/-- String.join of a cons. -/
theorem string_join_cons (a : String) (l : List String) :
    String.join (a :: l) = a ++ String.join l := by
  show (a :: l).foldl (fun r s => r ++ s) "" = a ++ String.join l
  simp only [List.foldl_cons]
  rw [string_foldl_append l ("" ++ a), String.empty_append]
  rfl

/-- String.join distributes over list append. -/
theorem string_join_append (l₁ l₂ : List String) :
    String.join (l₁ ++ l₂) = String.join l₁ ++ String.join l₂ := by
  induction l₁ with
  | nil =>
    simp only [List.nil_append]
    exact (String.empty_append _).symm
  | cons a t ih =>
    simp only [List.cons_append, string_join_cons, ih, String.append_assoc]

/-- Inner loop of String.intercalate with separator newline, followed by the
trailing newline, equals the join of newline-terminated lines. -/
theorem intercalate_go_newline (acc : String) (l : List String) :
    String.intercalate.go acc ("\n") l ++ "\n" =
      acc ++ "\n" ++ String.join (l.map (fun line => line ++ "\n")) := by
  induction l generalizing acc with
  | nil =>
    show acc ++ "\n" = acc ++ "\n" ++ String.join []
    rw [show String.join [] = "" from rfl, String.append_empty]
  | cons a as ih =>
    show String.intercalate.go (acc ++ "\n" ++ a) ("\n") as ++ "\n" =
      acc ++ "\n" ++ String.join ((a :: as).map (fun line => line ++ "\n"))
    rw [ih, List.map_cons, string_join_cons]
    simp only [String.append_assoc]

/-- Newline-intercalation of a nonempty list plus a trailing newline is the
join of the newline-terminated lines. -/
theorem intercalate_newline (a : String) (as : List String) :
    String.intercalate ("\n") (a :: as) ++ "\n" =
      String.join ((a :: as).map (fun line => line ++ "\n")) := by
  show String.intercalate.go a ("\n") as ++ "\n" =
    String.join ((a :: as).map (fun line => line ++ "\n"))
  rw [intercalate_go_newline, List.map_cons, string_join_cons]

/-- Closed form of full_command_string: every line carries exactly one
terminating newline. -/
theorem full_command_string_join (n : Int) :
    full_command_string n =
      String.join ((setup_commands ++ print_commands n).map (fun line => line ++ "\n")) := by
  unfold full_command_string
  have hcons : setup_commands ++ print_commands n =
      "SET \"PRINT METHOD\" \"DIRECT THERMAL\"" ::
        (["SET \"MEDIA TYPE\" \"GAP\"",
          "SET \"MEDIA WIDTH\" 840",
          "SET \"MEDIA LENGTH\" 251"] ++ print_commands n) := rfl
  rw [hcons, intercalate_newline]

/-- C6: for n at least one the stream begins with the four setup lines in
fixed order (byte-identical for every n), and the whole payload is exactly
the lines each followed by one newline terminator, the last included. -/
theorem setup_first_with_line_terminators (n : Int) (_hn : 1 ≤ n) :
    (∃ rest, full_command_string n =
      "SET \"PRINT METHOD\" \"DIRECT THERMAL\"\nSET \"MEDIA TYPE\" \"GAP\"\nSET \"MEDIA WIDTH\" 840\nSET \"MEDIA LENGTH\" 251\n" ++ rest) ∧
    full_command_string n =
      String.join ((setup_commands ++ print_commands n).map (fun line => line ++ "\n")) := by
  refine ⟨⟨String.join ((print_commands n).map (fun line => line ++ "\n")), ?_⟩,
    full_command_string_join n⟩
  rw [full_command_string_join n, List.map_append, string_join_append]
  congr 1

/-- Witness for setup_first_with_line_terminators at n = 1. -/
theorem setup_first_with_line_terminators_witness :
    (1 : Int) ≤ 1 ∧
    (∃ rest, full_command_string 1 =
      "SET \"PRINT METHOD\" \"DIRECT THERMAL\"\nSET \"MEDIA TYPE\" \"GAP\"\nSET \"MEDIA WIDTH\" 840\nSET \"MEDIA LENGTH\" 251\n" ++ rest) :=
  ⟨by decide, (setup_first_with_line_terminators 1 (by decide)).1⟩

/-! ### Decimal digit characters -/

/-- Digit characters of a value below ten are decimal digit characters. -/
theorem digitChar_mem_digits : ∀ m < 10, Nat.digitChar m ∈ ("0123456789").data := by
  decide

/-- Decimal digit characters are plain ASCII. -/
theorem digits_ascii : ∀ c ∈ ("0123456789").data, c.toNat < 128 := by
  decide

/-- Characters produced by Nat.toDigitsCore in base ten are decimal digit
characters, given the accumulator holds only such characters. -/
theorem toDigitsCore_mem_digits (f : Nat) : ∀ (n : Nat) (ds : List Char),
    (∀ c ∈ ds, c ∈ ("0123456789").data) →
    ∀ c ∈ Nat.toDigitsCore 10 f n ds, c ∈ ("0123456789").data := by
  induction f with
  | zero =>
    intro n ds hds c hc
    exact hds c hc
  | succ f ih =>
    intro n ds hds c hc
    have hmod : n % 10 < 10 := Nat.mod_lt _ (by omega)
    have hcons : ∀ d ∈ Nat.digitChar (n % 10) :: ds, d ∈ ("0123456789").data := by
      intro d hd
      rcases List.mem_cons.1 hd with h1 | h2
      · rw [h1]
        exact digitChar_mem_digits _ hmod
      · exact hds d h2
    by_cases h : n / 10 = 0
    · have heq : Nat.toDigitsCore 10 (f + 1) n ds = Nat.digitChar (n % 10) :: ds := by
        simp only [Nat.toDigitsCore]
        rw [if_pos h]
      rw [heq] at hc
      exact hcons c hc
    · have heq : Nat.toDigitsCore 10 (f + 1) n ds =
          Nat.toDigitsCore 10 f (n / 10) (Nat.digitChar (n % 10) :: ds) := by
        simp only [Nat.toDigitsCore]
        rw [if_neg h]
      rw [heq] at hc
      exact ih (n / 10) _ hcons c hc

/-- Every character of the decimal rendering of a natural number is a
decimal digit character. -/
theorem natRepr_digits (n : Nat) : ∀ c ∈ (Nat.repr n).data, c ∈ ("0123456789").data := by
  intro c hc
  have h : (Nat.repr n).data = Nat.toDigitsCore 10 (n + 1) n [] := rfl
  rw [h] at hc
  refine toDigitsCore_mem_digits (n + 1) n [] ?_ c hc
  intro d hd
  exact absurd hd (List.not_mem_nil d)

/-- Every character of the decimal rendering of a positive integer is a
decimal digit character (in particular there is no sign and no separator). -/
theorem toString_int_pos_digits (i : Int) (h : 1 ≤ i) :
    ∀ c ∈ (toString i).data, c ∈ ("0123456789").data := by
  obtain ⟨m, rfl⟩ : ∃ m : Nat, i = Int.ofNat m :=
    ⟨i.toNat, by rw [Int.ofNat_eq_coe, Int.toNat_of_nonneg (by omega)]⟩
  show ∀ c ∈ (Nat.repr m).data, c ∈ ("0123456789").data
  exact natRepr_digits m

/-- Every element of pyRange1 is a positive integer. -/
theorem pyRange1_pos (n : Int) : ∀ i ∈ pyRange1 n, 1 ≤ i := by
  intro i hi
  obtain ⟨k, _, rfl⟩ := List.mem_map.1 hi
  have hk : 0 ≤ Int.ofNat k := Int.ofNat_nonneg k
  omega

/-- Characters of the TEXT line of a positive label index are ASCII. -/
theorem text_line_ascii (i : Int) (h : 1 ≤ i) :
    ∀ c ∈ ("TEXT \"" ++ toString i ++ "\"").data, c.toNat < 128 := by
  intro c hc
  have hd : ("TEXT \"" ++ toString i ++ "\"").data =
      ("TEXT \"").data ++ ((toString i).data ++ ("\"").data) := by
    rw [String.data_append, String.data_append, List.append_assoc]
  rw [hd] at hc
  rcases List.mem_append.1 hc with h1 | h2
  · exact (show ∀ x ∈ ("TEXT \"").data, x.toNat < 128 by decide) c h1
  · rcases List.mem_append.1 h2 with h3 | h4
    · exact digits_ascii c (toString_int_pos_digits i h c h3)
    · exact (show ∀ x ∈ ("\"").data, x.toNat < 128 by decide) c h4

/-- Characters of every line of a positive label group are ASCII. -/
theorem label_commands_ascii (i : Int) (h : 1 ≤ i) :
    ∀ l ∈ label_commands i, ∀ c ∈ l.data, c.toNat < 128 := by
  intro l hl
  simp only [label_commands, List.mem_cons, List.not_mem_nil, or_false] at hl
  rcases hl with rfl | rfl | rfl | rfl | rfl | rfl
  · decide
  · decide
  · decide
  · exact text_line_ascii i h
  · decide
  · decide

/-- Characters of every setup line are ASCII. -/
theorem setup_commands_ascii : ∀ l ∈ setup_commands, ∀ c ∈ l.data, c.toNat < 128 := by
  decide

/-- Membership in the characters of a joined list of strings comes from one
of the strings. -/
theorem mem_string_join_data (l : List String) (c : Char) :
    c ∈ (String.join l).data → ∃ s ∈ l, c ∈ s.data := by
  induction l with
  | nil =>
    intro hc
    exact absurd hc (List.not_mem_nil c)
  | cons a t ih =>
    intro hc
    rw [string_join_cons, String.data_append] at hc
    rcases List.mem_append.1 hc with h1 | h2
    · exact ⟨a, List.mem_cons_self a t, h1⟩
    · obtain ⟨s, hs, hcs⟩ := ih h2
      exact ⟨s, List.mem_cons_of_mem a hs, hcs⟩

/-- C7: the builder is deterministic (equal counts give byte-identical
payloads), the payload is pure ASCII, and every embedded label number is
rendered with plain decimal ASCII digits with no separators and no
locale-dependent formatting. -/
theorem stream_deterministic_ascii (n : Int) :
    (∀ m : Int, m = n → full_command_string m = full_command_string n) ∧
    (∀ c ∈ (full_command_string n).data, c.toNat < 128) ∧
    (∀ i ∈ pyRange1 n, ∀ c ∈ (toString i).data, c ∈ ("0123456789").data) := by
  refine ⟨fun m hm => by rw [hm], ?_,
    fun i hi => toString_int_pos_digits i (pyRange1_pos n i hi)⟩
  intro c hc
  rw [full_command_string_join] at hc
  obtain ⟨t, ht, hct⟩ := mem_string_join_data _ c hc
  obtain ⟨line, hline, rfl⟩ := List.mem_map.1 ht
  rw [String.data_append] at hct
  rcases List.mem_append.1 hct with hcl | hcn
  · rcases List.mem_append.1 hline with hs | hb
    · exact setup_commands_ascii line hs c hcl
    · rw [print_commands_eq] at hb
      obtain ⟨g, hg, hlg⟩ := List.mem_flatten.1 hb
      obtain ⟨i, hi, rfl⟩ := List.mem_map.1 hg
      exact label_commands_ascii i (pyRange1_pos n i hi) line hlg c hcl
  · have hn : c = '\n' := by
      simpa using hcn
    rw [hn]
    decide

/-- Witness for stream_deterministic_ascii: the digit rendered for the
first label of a one-label job is the ASCII digit one. -/
theorem stream_deterministic_ascii_witness :
    '1' ∈ ("0123456789").data :=
  (stream_deterministic_ascii 1).2.2 1 (by decide) '1' (by decide)

/-! ### Concrete instantiations of the transport theorems -/

/-- Witness for print_labels_never_raises: a connect failure at n = 2 is
converted into a success=false result. -/
theorem print_labels_never_raises_witness :
    (print_labels 2 (some SockExc.timeout) none).1 = false := by
  rcases print_labels_never_raises 2 (some SockExc.timeout) none with ⟨hc, _, _⟩ | ⟨hf, _⟩
  · exact absurd hc (by decide)
  · exact hf

/-- Witness for socket_error_branch_message on a concrete refused error. -/
theorem socket_error_branch_message_witness :
    print_labels 2 (some (SockExc.sockErr ("Connection refused"))) none =
      (false, "Socket error: " ++ "Connection refused") :=
  (socket_error_branch_message 2 ("Connection refused") none).1

/-- Witness for connect_timeout_branch at n = 2. -/
theorem connect_timeout_branch_witness :
    print_labels 2 (some SockExc.timeout) none =
      (false, "Connection timed out. Check printer IP (192.168.1.193) and network.") :=
  (connect_timeout_branch 2 none).1

/-- Witness for send_timeout_uses_timeout_branch at n = 2. -/
theorem send_timeout_uses_timeout_branch_witness :
    print_labels 2 none (some SockExc.timeout) =
      (false, "Connection timed out. Check printer IP (192.168.1.193) and network.") :=
  (send_timeout_uses_timeout_branch 2).2.1
